import Mathlib

/-!
Shallow embedding of `app.py` (gestao-pad): the case workflow state machine,
deadline evaluator and document consolidation pipeline, together with proofs
of the specified properties.

Dates are modelled as integer day numbers; `datetime` timestamps used only
for ordering progress entries are modelled as naturals.  The SQLAlchemy
record store is modelled as explicit lists of rows with integer primary
keys; the `cascade="all, delete-orphan"` relationships of `Processo` and
`Andamento` are modelled by the corresponding row filters on delete.
-/

namespace GestaoPad

/-- The `WORKFLOWS` table of `app.py`: case type to ordered stage list. -/
def WORKFLOWS : List (String × List String) :=
  [ ("PAD", ["Autuado", "Instrução", "Relatório Final", "Julgamento", "Finalizado"]),
    ("Sindicância", ["Autuado", "Apuração", "Relatório Final", "Arquivado"]),
    ("Tomada de Conta Especial",
      ["Instauração", "Citação", "Defesa", "Relatório", "Julgamento", "Finalizado"]),
    ("Processo Administrativo Especial",
      ["Autuação", "Instrução", "Decisão", "Finalizado"]) ]

/-- Python `WORKFLOWS.get(tipo, default)`. -/
def workflowsGet (tipo : String) (dflt : List String) : List String :=
  match WORKFLOWS.lookup tipo with
  | some stages => stages
  | none => dflt

/-- Row of the `processo` table (fields of the `Processo` model). -/
structure Processo where
  id : Nat
  numero_processo : String
  portaria : Option String
  membros_comissao : Option String
  tipo : String
  servidor_a_apurar : Bool
  servidor_investigado : Option String
  servidor_cargo : Option String
  servidor_matricula : Option String
  resumo_fatos : String
  status : String
  data_autuacao : Int          -- opening date, as a day number
  prazo_inicial_dias : Option Int
  prorrogacao_dias : Option Int
  data_atualizacao : Nat       -- last-update timestamp
  deriving Repr, DecidableEq

/-- Row of the `andamento` table. -/
structure Andamento where
  id : Nat
  etapa : String
  descricao : Option String
  data : Nat                   -- creation timestamp, orders entries
  processo_id : Nat
  deriving Repr, DecidableEq

/-- Row of the `documento` table. -/
structure Documento where
  id : Nat
  filename : String
  andamento_id : Nat
  deriving Repr, DecidableEq

/-- The record store: the three case-related tables plus a fresh-id source. -/
structure DB where
  processos : List Processo
  andamentos : List Andamento
  documentos : List Documento
  nextId : Nat
  deriving Repr, DecidableEq

/-- Progress entries of one case, in insertion order (`processo.andamentos`). -/
def andamentosOf (db : DB) (pid : Nat) : List Andamento :=
  db.andamentos.filter (fun a => a.processo_id = pid)

/-- Documents of one progress entry, in insertion order (`andamento.documentos`). -/
def documentosOf (db : DB) (aid : Nat) : List Documento :=
  db.documentos.filter (fun d => d.andamento_id = aid)

/-- Data submitted on the `adicionar_processo` form. -/
structure CreateForm where
  numero_processo : String
  tipo : String
  resumo_fatos : String
  data_autuacao : Int
  portaria : Option String
  membros_comissao : Option String
  servidor_a_apurar : Bool
  servidor_investigado : Option String
  servidor_cargo : Option String
  servidor_matricula : Option String
  prazo_inicial_dias : Option Int
  prorrogacao_dias : Option Int
  deriving Repr, DecidableEq

inductive CreateError
  | duplicateCaseNumber
  deriving Repr, DecidableEq

/-- The initial status of a created case:
`WORKFLOWS.get(tipo, ["Autuado"])[0]` (app.py line 197). -/
def status_inicial (tipo : String) : String :=
  (workflowsGet tipo ["Autuado"]).headD ""

/-- The new case row built by `adicionar_processo` (app.py lines 199-213). -/
def novoProcesso (db : DB) (form : CreateForm) (now : Nat) : Processo :=
  { id := db.nextId
    numero_processo := form.numero_processo
    portaria := form.portaria
    membros_comissao := form.membros_comissao
    tipo := form.tipo
    servidor_a_apurar := form.servidor_a_apurar
    servidor_investigado := form.servidor_investigado
    servidor_cargo := form.servidor_cargo
    servidor_matricula := form.servidor_matricula
    resumo_fatos := form.resumo_fatos
    status := status_inicial form.tipo
    data_autuacao := form.data_autuacao
    prazo_inicial_dias := form.prazo_inicial_dias
    prorrogacao_dias := form.prorrogacao_dias
    data_atualizacao := now }

/-- The initial progress entry "Processo instaurado." (app.py line 214). -/
def primeiroAndamento (db : DB) (form : CreateForm) (now : Nat) : Andamento :=
  { id := db.nextId + 1
    etapa := status_inicial form.tipo
    descricao := some "Processo instaurado."
    data := now
    processo_id := db.nextId }

/-- The POST branch of route `adicionar_processo` (app.py lines 185-219):
duplicate-number check, then insert of the new `Processo` with
`status = WORKFLOWS.get(tipo, ["Autuado"])[0]` and of one initial
`Andamento` with description "Processo instaurado.", committed together. -/
def adicionar_processo (db : DB) (form : CreateForm) (now : Nat) :
    Except CreateError DB :=
  if db.processos.any (fun p => p.numero_processo = form.numero_processo) then
    .error .duplicateCaseNumber
  else
    .ok { processos := db.processos ++ [novoProcesso db form now]
          andamentos := db.andamentos ++ [primeiroAndamento db form now]
          documentos := db.documentos
          nextId := db.nextId + 2 }

inductive AdvanceError
  | caseNotFound
  | missingStage
  deriving Repr, DecidableEq

/-- Simplified model of werkzeug's `secure_filename`: strips path
separators.  No claim depends on the exact sanitisation. -/
def secure_filename (s : String) : String :=
  String.mk (s.data.filter (fun c => c ≠ '/'))

/-- The stored name of an accepted upload: timestamp-prefixed original name
(app.py line 286). -/
def stored_name (now : Nat) (orig : String) : String :=
  secure_filename (toString now ++ "_" ++ orig)

/-- The warning flashed for a non-PDF attachment (app.py line 284). -/
def warnMsg (fname : String) : String :=
  "Ficheiro \"" ++ fname ++ "\" ignorado. Apenas PDFs são permitidos."

/-- Python `str.lower`, applied characterwise. -/
def lower (s : String) : String :=
  String.mk (s.data.map Char.toLower)

/-- The acceptance test `file.filename.lower().endswith('.pdf')`
of app.py line 283. -/
def isPdfName (s : String) : Bool :=
  List.isSuffixOf ".pdf".data (lower s).data

/-- The upload loop of `avancar_etapa` (app.py lines 280-289): a file with an
empty name is skipped silently, a name not ending in `.pdf`
(case-insensitively) flashes a warning and is skipped, and every other file
becomes a `Documento` linked to entry `aid`.  Returns the created documents,
the warnings, and the next fresh id. -/
def handle_files (aid : Nat) (now : Nat) (nid : Nat) :
    List String → List Documento × List String × Nat
  | [] => ([], [], nid)
  | f :: rest =>
    if f = "" then handle_files aid now nid rest
    else if ¬ (isPdfName f) then
      let r := handle_files aid now nid rest
      (r.1, warnMsg f :: r.2.1, r.2.2)
    else
      let r := handle_files aid now (nid + 1) rest
      ({ id := nid, filename := stored_name now f, andamento_id := aid } :: r.1,
        r.2.1, r.2.2)

/-- Result of a successful `avancar_etapa`: the new store state and the
warnings flashed for skipped attachments. -/
structure AdvanceResult where
  db : DB
  warnings : List String
  deriving Repr, DecidableEq

/-- The progress entry appended by `avancar_etapa` (app.py lines 273-277). -/
def novoAndamento (db : DB) (pid : Nat) (nova_etapa : String)
    (descricao : Option String) (now : Nat) : Andamento :=
  { id := db.nextId, etapa := nova_etapa, descricao := descricao,
    data := now, processo_id := pid }

/-- The committed state and warnings of a successful `avancar_etapa`. -/
def avancado (db : DB) (pid : Nat) (nova_etapa : String)
    (descricao : Option String) (files : List String) (now : Nat) :
    AdvanceResult :=
  let r := handle_files db.nextId now (db.nextId + 1) files
  { db :=
      { processos := db.processos.map (fun p =>
          if p.id = pid then
            { p with status := nova_etapa, data_atualizacao := now }
          else p)
        andamentos := db.andamentos ++ [novoAndamento db pid nova_etapa descricao now]
        documentos := db.documentos ++ r.1
        nextId := r.2.2 }
    warnings := r.2.1 }

/-- Route `avancar_etapa` (app.py lines 261-294): 404 when the case id is
unknown, `missingStage` when the requested stage is empty; otherwise sets
`processo.status` to the requested stage, appends one `Andamento`, and runs
the upload loop, committing everything together. -/
def avancar_etapa (db : DB) (pid : Nat) (nova_etapa : String)
    (descricao : Option String) (files : List String) (now : Nat) :
    Except AdvanceError AdvanceResult :=
  match db.processos.find? (fun p => p.id = pid) with
  | none => .error .caseNotFound
  | some _ =>
    if nova_etapa = "" then .error .missingStage
    else .ok (avancado db pid nova_etapa descricao files now)

/-- Effect of `db.session.delete(processo)` in route `excluir_processo`
(app.py lines 251-258): by the `cascade="all, delete-orphan"` relationships
it removes the case row, its `Andamento` rows and their `Documento` rows. -/
def excluido (db : DB) (pid : Nat) : DB :=
  { processos := db.processos.filter (fun p => ¬ p.id = pid)
    andamentos := db.andamentos.filter (fun a => ¬ a.processo_id = pid)
    documentos := db.documentos.filter
      (fun d => ¬ (db.andamentos.filter (fun a => a.processo_id = pid)).any
        (fun a => a.id = d.andamento_id))
    nextId := db.nextId }

/-- Route dispatch of `excluir_processo`: 404 for an unknown id, otherwise
the cascaded deletion above. -/
def excluir_processo (db : DB) (pid : Nat) : Option DB :=
  if db.processos.any (fun p => p.id = pid) then some (excluido db pid)
  else none

/-! ### Deadline evaluator (dashboard route `index`, app.py lines 165-173) -/

/-- Python truthiness of a nullable integer column: `None` and `0` are falsy. -/
def truthyInt (o : Option Int) : Bool :=
  match o with
  | none => false
  | some n => n ≠ 0

/-- `prazo_total = p.prazo_inicial_dias + (p.prorrogacao_dias or 0)`
followed by `data_final = p.data_autuacao.date() + timedelta(days=prazo_total)`,
as a day number (meaningful when `prazo_inicial_dias` is present). -/
def data_final (p : Processo) : Int :=
  p.data_autuacao + p.prazo_inicial_dias.getD 0 + p.prorrogacao_dias.getD 0

/-- The spec's pure deadline function:
`daysRemaining(case, asOf) = opened_at.date + initial_deadline_days + extension_days − asOf`. -/
def daysRemaining (p : Processo) (asOf : Int) : Int :=
  data_final p - asOf

/-- The per-case test of the `prazos_vencendo` loop (app.py lines 168-172):
status not terminal, `p.prazo_inicial_dias` truthy, and
`hoje <= data_final < hoje + 7`. -/
def expiring_soon (p : Processo) (hoje : Int) : Bool :=
  p.status ≠ "Finalizado" && p.status ≠ "Arquivado" &&
    truthyInt p.prazo_inicial_dias &&
    (hoje ≤ data_final p && data_final p < hoje + 7)

/-- The dashboard count `prazos_vencendo`. -/
def prazos_vencendo (db : DB) (hoje : Int) : Nat :=
  (db.processos.filter (fun p => expiring_soon p hoje)).length

/-! ### Document consolidation pipeline (`generate_pdf_task`, app.py lines 329-375)

A PDF is modelled as its list of pages; a page is an opaque content string.
The upload folder is a lookup table from stored filename to the file's pages
(`none` models a missing file).  The cover produced by the external
HTML-to-PDF renderer is a parameter. -/

/-- Insert one entry into a list already sorted by `data`, after any equal
timestamps: together with `sortAndamentos` this is Python's stable
`sorted(processo.andamentos, key=lambda x: x.data)`. -/
def insertByData (a : Andamento) : List Andamento → List Andamento
  | [] => [a]
  | b :: t => if b.data ≤ a.data then b :: insertByData a t else a :: b :: t

/-- Stable ascending sort of progress entries by timestamp. -/
def sortAndamentos (l : List Andamento) : List Andamento :=
  l.foldl (fun acc a => insertByData a acc) []

/-- Python `f"{n:03d}"`: decimal, zero-padded to at least three digits. -/
def pad3 (n : Nat) : String :=
  if n < 10 then "00" ++ toString n
  else if n < 100 then "0" ++ toString n
  else toString n

/-- The folio label stamped on page number `n` (app.py line 361). -/
def folio_label (n : Nat) : String :=
  "Fl. " ++ pad3 n

/-- The stamping loop (app.py lines 359-364): page `i` (0-based) of the
merged document receives the right-aligned label for folio `n + i`.  A
stamped page is the pair (content, label). -/
def stampFrom (n : Nat) : List String → List (String × String)
  | [] => []
  | p :: rest => (p, folio_label n) :: stampFrom (n + 1) rest

/-- Stamp the whole merged document, folios starting at 1. -/
def stamp (pages : List String) : List (String × String) :=
  stampFrom 1 pages

/-- `os.path.exists` + `merger.append`: the pages a stored document
contributes — its file's pages, or none when the file is missing
(app.py lines 347-349). -/
def resolve (store : List (String × List String)) (fname : String) :
    List String :=
  match store.lookup fname with
  | some pages => pages
  | none => []

/-- `generate_pdf_task` (app.py lines 329-375): load the case (silent abort
when not found), merge cover then each entry's documents in ascending entry
timestamp, then stamp continuous folio numbers over the merged result.  The
returned value is the stamped page sequence of the written report. -/
def generate_pdf_task (db : DB) (store : List (String × List String))
    (cover : List String) (pid : Nat) : Option (List (String × String)) :=
  match db.processos.find? (fun p => p.id = pid) with
  | none => none
  | some _ =>
    let ands := sortAndamentos (andamentosOf db pid)
    let srcPages :=
      (ands.map (fun a =>
        ((documentosOf db a.id).map (fun d => resolve store d.filename)).flatten)).flatten
    some (stamp (cover ++ srcPages))

/-! ### Concurrent case creation (claim C1)

`adicionar_processo` makes two database round-trips: the duplicate check of
line 190 and the committing insert of line 217.  The insert is backed by the
`unique=True` constraint on `Processo.numero_processo` (line 61), so a
commit that would duplicate an existing number is rejected by the store.
Two concurrent requests for the same number `n` are modelled as two
two-step processes interleaved over the set of stored numbers. -/

/-- Control state of one in-flight create request for a fixed number. -/
inductive ReqState
  | beforeCheck   -- has not yet run the duplicate check
  | checkedOk     -- duplicate check passed, insert not yet committed
  | failedDup     -- failed at the duplicate check (DuplicateCaseNumber)
  | failedUnique  -- commit rejected by the unique constraint
  | succeeded     -- row committed
  deriving Repr, DecidableEq

/-- One step of a create request for number `n` against the stored numbers. -/
def createStep (n : String) (nums : List String) (r : ReqState) :
    List String × ReqState :=
  match r with
  | .beforeCheck =>
    if n ∈ nums then (nums, .failedDup) else (nums, .checkedOk)
  | .checkedOk =>
    if n ∈ nums then (nums, .failedUnique) else (n :: nums, .succeeded)
  | r => (nums, r)

/-- Global state of the two-request race. -/
structure RaceState where
  nums : List String
  a : ReqState
  b : ReqState
  deriving Repr, DecidableEq

/-- Run one scheduled step: `false` steps request A, `true` steps request B. -/
def raceStep (n : String) (s : RaceState) (who : Bool) : RaceState :=
  if who then
    let r := createStep n s.nums s.b
    { s with nums := r.1, b := r.2 }
  else
    let r := createStep n s.nums s.a
    { s with nums := r.1, a := r.2 }

/-- Run a whole interleaving schedule. -/
def runRace (n : String) : RaceState → List Bool → RaceState
  | s, [] => s
  | s, who :: rest => runRace n (raceStep n s who) rest

/-- A request that has finished (reached a terminal control state). -/
def finished (r : ReqState) : Bool :=
  r = .failedDup || r = .failedUnique || r = .succeeded

/-- Invariant of the race of two create requests for the same fresh number:
the number is stored exactly when one request committed it, the two requests
never both succeed, and a request fails only after the other committed. -/
def RaceInv (n : String) (s : RaceState) : Prop :=
  (n ∈ s.nums ↔ (s.a = .succeeded ∨ s.b = .succeeded)) ∧
  ¬ (s.a = .succeeded ∧ s.b = .succeeded) ∧
  ((s.a = .failedDup ∨ s.a = .failedUnique) → s.b = .succeeded) ∧
  ((s.b = .failedDup ∨ s.b = .failedUnique) → s.a = .succeeded)

/-! ### Concrete fixtures for witnesses and counterexamples -/

/-- Empty record store. -/
def dbEmpty : DB := { processos := [], andamentos := [], documentos := [], nextId := 1 }

/-- A creation form for a registered case type. -/
def formA : CreateForm :=
  { numero_processo := "2024/0001", tipo := "PAD",
    resumo_fatos := "Apuração de falta funcional", data_autuacao := 0,
    portaria := none, membros_comissao := none, servidor_a_apurar := false,
    servidor_investigado := none, servidor_cargo := none,
    servidor_matricula := none, prazo_inicial_dias := some 30,
    prorrogacao_dias := some 0 }

/-- A creation form whose case type is not registered in `WORKFLOWS`. -/
def formUnknown : CreateForm :=
  { formA with numero_processo := "2024/0002", tipo := "Tipo Inexistente" }

/-- A stored case with id 1. -/
def pA : Processo :=
  { id := 1, numero_processo := "2024/0001", portaria := none,
    membros_comissao := none, tipo := "PAD", servidor_a_apurar := false,
    servidor_investigado := none, servidor_cargo := none,
    servidor_matricula := none, resumo_fatos := "Apuração de falta funcional",
    status := "Autuado", data_autuacao := 0, prazo_inicial_dias := some 30,
    prorrogacao_dias := some 0, data_atualizacao := 0 }

/-- Store holding only case `pA`. -/
def dbOne : DB := { processos := [pA], andamentos := [], documentos := [], nextId := 2 }

/-- Two progress entries of case 1 with distinct timestamps. -/
def entrada1 : Andamento :=
  { id := 2, etapa := "Instrução", descricao := none, data := 10, processo_id := 1 }

/-- Second, later entry of case 1. -/
def entrada2 : Andamento :=
  { id := 3, etapa := "Relatório Final", descricao := none, data := 20, processo_id := 1 }

/-- A document of entry `entrada1`. -/
def docA : Documento := { id := 4, filename := "a.pdf", andamento_id := 2 }

/-- A document of entry `entrada2`. -/
def docB : Documento := { id := 5, filename := "b.pdf", andamento_id := 3 }

/-- A second document of entry `entrada1`. -/
def docB2 : Documento := { id := 5, filename := "b.pdf", andamento_id := 2 }

/-- Case 1 with one document under each of its two entries. -/
def dbDocs : DB :=
  { processos := [pA], andamentos := [entrada1, entrada2],
    documentos := [docA, docB], nextId := 6 }

/-- Case 1 with two documents under one entry. -/
def dbDocsOne : DB :=
  { processos := [pA], andamentos := [entrada1],
    documentos := [docA, docB2], nextId := 6 }

/-- Upload folder holding both source files. -/
def storeAB : List (String × List String) :=
  [("a.pdf", ["pa1", "pa2"]), ("b.pdf", ["pb1"])]

/-- Upload folder where `b.pdf` is missing. -/
def storeAOnly : List (String × List String) :=
  [("a.pdf", ["pa1", "pa2"])]

/-- A non-terminal case whose `prazo_inicial_dias` is 0. -/
def pZero : Processo :=
  { pA with prazo_inicial_dias := some 0, prorrogacao_dias := some 0 }

/-- A case opened on day `D` with a 30-day deadline extended by 5 days. -/
def pDeadline (D : Int) : Processo :=
  { pA with
    data_autuacao := D
    prazo_inicial_dias := some 30
    prorrogacao_dias := some 5 }

/-! ## Helper lemmas -/

theorem raceStep_inv {n : String} {s : RaceState} (who : Bool) (h : RaceInv n s) :
    RaceInv n (raceStep n s who) := by
  obtain ⟨nums, a, b⟩ := s
  obtain ⟨h1, h2, h3, h4⟩ := h
  by_cases hn : n ∈ nums <;> cases who <;> cases a <;> cases b <;>
    simp_all [raceStep, createStep, RaceInv]

theorem runRace_inv {n : String} (sched : List Bool) {s : RaceState}
    (h : RaceInv n s) : RaceInv n (runRace n s sched) := by
  induction sched generalizing s with
  | nil => exact h
  | cons w rest ih => exact ih (raceStep_inv w h)

/-! ## Claim theorems -/

/-- C1: `adicionar_processo` fails with `DuplicateCaseNumber` when a case
with the submitted number already exists (and, failing, commits nothing);
on a number held by no stored case it succeeds, stores the number exactly
once, and any later creation with the same number fails; and in every
interleaving of the two database round-trips of two concurrent creations
with the same fresh number in which both requests finish, exactly one
succeeds. -/
theorem C1_create_unique :
    (∀ db form now,
        (∃ p ∈ db.processos, p.numero_processo = form.numero_processo) →
        adicionar_processo db form now = .error .duplicateCaseNumber) ∧
    (∀ db form now,
        (∀ p ∈ db.processos, p.numero_processo ≠ form.numero_processo) →
        ∃ db', adicionar_processo db form now = .ok db' ∧
          (db'.processos.filter
            (fun p => p.numero_processo = form.numero_processo)).length = 1 ∧
          ∀ form2 now2, form2.numero_processo = form.numero_processo →
            adicionar_processo db' form2 now2 = .error .duplicateCaseNumber) ∧
    (∀ n nums sched, n ∉ nums →
        finished (runRace n ⟨nums, .beforeCheck, .beforeCheck⟩ sched).a = true →
        finished (runRace n ⟨nums, .beforeCheck, .beforeCheck⟩ sched).b = true →
        ((runRace n ⟨nums, .beforeCheck, .beforeCheck⟩ sched).a = .succeeded ↔
          ¬ (runRace n ⟨nums, .beforeCheck, .beforeCheck⟩ sched).b = .succeeded)) := by
  refine ⟨?_, ?_, ?_⟩
  · intro db form now h
    have hc : db.processos.any
        (fun p => p.numero_processo = form.numero_processo) = true := by
      rw [List.any_eq_true]
      obtain ⟨p, hp, he⟩ := h
      exact ⟨p, hp, by simp [he]⟩
    simp [adicionar_processo, hc]
  · intro db form now h
    have hc : db.processos.any
        (fun p => p.numero_processo = form.numero_processo) = false := by
      rw [List.any_eq_false]
      intro p hp
      simp [h p hp]
    have hres : adicionar_processo db form now = .ok
        { processos := db.processos ++ [novoProcesso db form now]
          andamentos := db.andamentos ++ [primeiroAndamento db form now]
          documentos := db.documentos
          nextId := db.nextId + 2 } := by
      simp [adicionar_processo, hc]
    refine ⟨_, hres, ?_, ?_⟩
    · rw [List.filter_append]
      have hnilf : db.processos.filter
          (fun p => decide (p.numero_processo = form.numero_processo)) = [] := by
        rw [List.filter_eq_nil_iff]
        intro p hp
        simp [h p hp]
      simp [hnilf, novoProcesso]
    · intro form2 now2 he
      have hc2 : ((db.processos ++ [novoProcesso db form now]).any
          (fun p => p.numero_processo = form2.numero_processo)) = true := by
        rw [List.any_eq_true]
        exact ⟨novoProcesso db form now, by simp, by simp [novoProcesso, he]⟩
      simp [adicionar_processo, hc2]
  · intro n nums sched hn hfa hfb
    obtain ⟨h1, h2, h3, h4⟩ :=
      runRace_inv (n := n) sched (s := ⟨nums, .beforeCheck, .beforeCheck⟩)
        (by simp [RaceInv, hn])
    constructor
    · intro ha hb
      exact h2 ⟨ha, hb⟩
    · intro hb
      simp only [finished, Bool.or_eq_true, decide_eq_true_eq] at hfb
      rcases hfb with (h | h) | h
      · exact h4 (Or.inl h)
      · exact h4 (Or.inr h)
      · exact absurd h hb

theorem find?_map_status (l : List Processo) (pid : Nat) (etapa : String)
    (now : Nat) (p₀ : Processo)
    (h : l.find? (fun q => q.id = pid) = some p₀) :
    (l.map (fun p => if p.id = pid then
        { p with status := etapa, data_atualizacao := now } else p)).find?
      (fun q => q.id = pid) =
      some { p₀ with status := etapa, data_atualizacao := now } := by
  induction l with
  | nil => simp at h
  | cons x t ih =>
    by_cases hx : x.id = pid
    · rw [List.find?_cons_of_pos _ (by simp [hx])] at h
      obtain rfl : x = p₀ := by exact Option.some.inj h
      simp only [List.map_cons, if_pos hx]
      rw [List.find?_cons_of_pos _ (by simp [hx])]
    · rw [List.find?_cons_of_neg _ (by simp [hx])] at h
      simp only [List.map_cons, if_neg hx]
      rw [List.find?_cons_of_neg _ (by simp [hx])]
      exact ih h

/-- C2: `avancar_etapa` fails with `caseNotFound` for an unknown case id and
with `missingStage` for an empty requested stage, committing nothing in
either case; for every stored case and every non-empty requested stage name
it sets `status` to exactly that name and appends exactly one new progress
entry carrying it, with no condition on membership of the name in the case
type's `WORKFLOWS` stage list. -/
theorem C2_advance_stage :
    (∀ db pid etapa desc files now,
        db.processos.find? (fun q => q.id = pid) = none →
        avancar_etapa db pid etapa desc files now = .error .caseNotFound) ∧
    (∀ db pid desc files now p₀,
        db.processos.find? (fun q => q.id = pid) = some p₀ →
        avancar_etapa db pid "" desc files now = .error .missingStage) ∧
    (∀ db pid etapa desc files now p₀,
        db.processos.find? (fun q => q.id = pid) = some p₀ →
        etapa ≠ "" →
        ∃ r, avancar_etapa db pid etapa desc files now = .ok r ∧
          (∃ p, r.db.processos.find? (fun q => q.id = pid) = some p ∧
            p.status = etapa) ∧
          (∃ a, andamentosOf r.db pid = andamentosOf db pid ++ [a] ∧
            a.etapa = etapa ∧ a.descricao = desc ∧ a.data = now)) := by
  refine ⟨?_, ?_, ?_⟩
  · intro db pid etapa desc files now h
    simp [avancar_etapa, h]
  · intro db pid desc files now p₀ h
    simp [avancar_etapa, h]
  · intro db pid etapa desc files now p₀ h he
    refine ⟨avancado db pid etapa desc files now,
      by simp [avancar_etapa, h, he], ?_, ?_⟩
    · exact ⟨_, find?_map_status db.processos pid etapa now p₀ h, rfl⟩
    · refine ⟨novoAndamento db pid etapa desc now, ?_, rfl, rfl, rfl⟩
      simp [avancado, andamentosOf, novoAndamento, List.filter_append]

/-- Witness for C2 at concrete inputs: unknown case id 9 on `dbEmpty`, empty
stage on `dbOne`, and a stage name outside the PAD workflow on `dbOne`. -/
theorem C2_advance_stage_witness :
    avancar_etapa dbEmpty 9 "Instrução" none [] 3 = .error .caseNotFound ∧
    avancar_etapa dbOne 1 "" none [] 3 = .error .missingStage ∧
    (∃ r, avancar_etapa dbOne 1 "Etapa Fora do Fluxo" none [] 3 = .ok r ∧
      (∃ p, r.db.processos.find? (fun q => q.id = 1) = some p ∧
        p.status = "Etapa Fora do Fluxo") ∧
      (∃ a, andamentosOf r.db 1 = andamentosOf dbOne 1 ++ [a] ∧
        a.etapa = "Etapa Fora do Fluxo" ∧ a.descricao = none ∧ a.data = 3)) :=
  ⟨C2_advance_stage.1 dbEmpty 9 "Instrução" none [] 3 (by decide),
   C2_advance_stage.2.1 dbOne 1 none [] 3 pA (by decide),
   C2_advance_stage.2.2 dbOne 1 "Etapa Fora do Fluxo" none [] 3 pA (by decide)
     (by decide)⟩

theorem handle_files_nil (aid now nid : Nat) :
    handle_files aid now nid [] = ([], [], nid) := rfl

theorem handle_files_cons (aid now nid : Nat) (f : String) (rest : List String) :
    handle_files aid now nid (f :: rest) =
      if f = "" then handle_files aid now nid rest
      else if ¬ (isPdfName f) then
        ((handle_files aid now nid rest).1,
         warnMsg f :: (handle_files aid now nid rest).2.1,
         (handle_files aid now nid rest).2.2)
      else
        (({ id := nid, filename := stored_name now f,
            andamento_id := aid } : Documento) ::
          (handle_files aid now (nid + 1) rest).1,
         (handle_files aid now (nid + 1) rest).2.1,
         (handle_files aid now (nid + 1) rest).2.2) := rfl

theorem handle_files_counts (aid now : Nat) :
    ∀ (files : List String) (nid : Nat), (∀ f ∈ files, f ≠ "") →
      (handle_files aid now nid files).1.length =
        (files.filter (fun f => isPdfName f)).length ∧
      (handle_files aid now nid files).2.1.length +
        (files.filter (fun f => isPdfName f)).length = files.length ∧
      ∀ d ∈ (handle_files aid now nid files).1, d.andamento_id = aid := by
  intro files
  induction files with
  | nil => intro nid h; simp [handle_files_nil]
  | cons f rest ih =>
    intro nid h
    have hf : f ≠ "" := h f (by simp)
    have hrest : ∀ g ∈ rest, g ≠ "" := fun g hg => h g (by simp [hg])
    by_cases hpdf : isPdfName f = true
    · have hh : handle_files aid now nid (f :: rest) =
          (({ id := nid, filename := stored_name now f,
              andamento_id := aid } : Documento) ::
            (handle_files aid now (nid + 1) rest).1,
           (handle_files aid now (nid + 1) rest).2.1,
           (handle_files aid now (nid + 1) rest).2.2) := by
        rw [handle_files_cons, if_neg hf, if_neg (not_not_intro hpdf)]
      obtain ⟨h1, h2, h3⟩ := ih (nid + 1) hrest
      refine ⟨?_, ?_, ?_⟩
      · rw [hh, List.filter_cons, if_pos hpdf]
        simp [h1]
      · rw [hh, List.filter_cons, if_pos hpdf]
        simp only [List.length_cons]
        omega
      · rw [hh]
        intro d hd
        rcases List.mem_cons.mp hd with hd | hd
        · rw [hd]
        · exact h3 d hd
    · have hh : handle_files aid now nid (f :: rest) =
          ((handle_files aid now nid rest).1,
           warnMsg f :: (handle_files aid now nid rest).2.1,
           (handle_files aid now nid rest).2.2) := by
        rw [handle_files_cons, if_neg hf, if_pos hpdf]
      obtain ⟨h1, h2, h3⟩ := ih nid hrest
      refine ⟨?_, ?_, ?_⟩
      · rw [hh, List.filter_cons, if_neg hpdf]
        simp [h1]
      · rw [hh, List.filter_cons, if_neg hpdf]
        simp only [List.length_cons]
        omega
      · rw [hh]
        exact h3

/-- C5: when `avancar_etapa` on a stored case receives attached files, all
with a real (non-empty) name, of which K end in `.pdf` case-insensitively,
the operation succeeds, persists exactly the K accepted files as documents
— all linked to the newly appended entry — and flashes one warning per
rejected file, so warnings + K = N. -/
theorem C5_attachment_filter :
    ∀ db pid etapa desc files now p₀,
      db.processos.find? (fun q => q.id = pid) = some p₀ →
      etapa ≠ "" →
      (∀ f ∈ files, f ≠ "") →
      ∃ r newdocs, avancar_etapa db pid etapa desc files now = .ok r ∧
        r.db.documentos = db.documentos ++ newdocs ∧
        newdocs.length = (files.filter (fun f => isPdfName f)).length ∧
        r.warnings.length + newdocs.length = files.length ∧
        ∀ d ∈ newdocs,
          d.andamento_id = (novoAndamento db pid etapa desc now).id := by
  intro db pid etapa desc files now p₀ h he hf
  obtain ⟨h1, h2, h3⟩ := handle_files_counts db.nextId now files (db.nextId + 1) hf
  refine ⟨avancado db pid etapa desc files now,
    (handle_files db.nextId now (db.nextId + 1) files).1,
    by simp [avancar_etapa, h, he], rfl, h1, ?_, ?_⟩
  · rw [h1]
    exact h2
  · intro d hd
    exact h3 d hd

theorem handle_files_filter_empty (aid now : Nat) :
    ∀ (files : List String) (nid : Nat),
      handle_files aid now nid (files.filter (fun f => f ≠ "")) =
        handle_files aid now nid files := by
  intro files
  induction files with
  | nil => intro nid; rfl
  | cons f rest ih =>
    intro nid
    rw [List.filter_cons]
    by_cases hf : f = ""
    · rw [if_neg (by simp [hf]), ih nid, hf, handle_files_cons, if_pos rfl]
    · rw [if_pos (by simp [hf])]
      by_cases hpdf : isPdfName f = true
      · rw [handle_files_cons, if_neg hf, if_neg (not_not_intro hpdf),
          handle_files_cons, if_neg hf, if_neg (not_not_intro hpdf), ih (nid + 1)]
      · rw [handle_files_cons, if_neg hf, if_pos hpdf,
          handle_files_cons, if_neg hf, if_pos hpdf, ih nid]

/-- C10: an attachment submitted with an empty filename is skipped silently
— the whole `avancar_etapa` result is unchanged by dropping empty-named
files, an empty-named file at the head of the upload list contributes
nothing, while a non-empty non-PDF name produces exactly one warning and no
document. -/
theorem C10_empty_filename :
    (∀ db pid etapa desc files now,
        avancar_etapa db pid etapa desc (files.filter (fun f => f ≠ "")) now =
          avancar_etapa db pid etapa desc files now) ∧
    (∀ aid now nid files, handle_files aid now nid ("" :: files) =
        handle_files aid now nid files) ∧
    (∀ aid now nid f, f ≠ "" → isPdfName f = false →
        handle_files aid now nid [f] = ([], [warnMsg f], nid)) := by
  refine ⟨?_, ?_, ?_⟩
  · intro db pid etapa desc files now
    cases hfind : db.processos.find? (fun p => p.id = pid) with
    | none => simp [avancar_etapa, hfind]
    | some p =>
      by_cases he : etapa = ""
      · simp [avancar_etapa, hfind, he]
      · simp only [avancar_etapa, hfind, he, avancado,
          handle_files_filter_empty, if_neg he]
  · intro aid now nid files
    rw [handle_files_cons, if_pos rfl]
  · intro aid now nid f hf hpdf
    rw [handle_files_cons, if_neg hf,
      if_pos (by rw [hpdf]; exact Bool.false_ne_true), handle_files_nil]

/-- Witness for C5: advancing `dbOne` with files "a.pdf", "B.PDF" and
"notas.txt" persists two documents and one warning. -/
theorem C5_attachment_filter_witness :
    ∃ r newdocs,
      avancar_etapa dbOne 1 "Instrução" none ["a.pdf", "B.PDF", "notas.txt"] 3
        = .ok r ∧
      r.db.documentos = dbOne.documentos ++ newdocs ∧
      newdocs.length = ((["a.pdf", "B.PDF", "notas.txt"] : List String).filter
        (fun f => isPdfName f)).length ∧
      r.warnings.length + newdocs.length =
        (["a.pdf", "B.PDF", "notas.txt"] : List String).length ∧
      ∀ d ∈ newdocs,
        d.andamento_id = (novoAndamento dbOne 1 "Instrução" none 3).id :=
  C5_attachment_filter dbOne 1 "Instrução" none ["a.pdf", "B.PDF", "notas.txt"]
    3 pA (by decide) (by decide) (by decide)

/-- Witness for C10: the unconditional parts at concrete inputs and the
"notas.txt" contrast instance. -/
theorem C10_empty_filename_witness :
    avancar_etapa dbOne 1 "Instrução" none
        ((["", "a.pdf"] : List String).filter (fun f => f ≠ "")) 3 =
      avancar_etapa dbOne 1 "Instrução" none ["", "a.pdf"] 3 ∧
    handle_files 2 3 3 ["", "a.pdf"] = handle_files 2 3 3 ["a.pdf"] ∧
    handle_files 2 3 3 ["notas.txt"] = ([], [warnMsg "notas.txt"], 3) :=
  ⟨C10_empty_filename.1 dbOne 1 "Instrução" none ["", "a.pdf"] 3,
   C10_empty_filename.2.1 2 3 3 ["a.pdf"],
   C10_empty_filename.2.2 2 3 3 "notas.txt" (by decide) (by decide)⟩

/-- Witness for C1 at concrete inputs: the duplicate creation on `dbOne`,
the fresh creation on `dbEmpty`, and the alternating two-request schedule. -/
theorem C1_create_unique_witness :
    adicionar_processo dbOne formA 5 = .error .duplicateCaseNumber ∧
    (∃ db', adicionar_processo dbEmpty formA 5 = .ok db' ∧
      (db'.processos.filter
        (fun p => p.numero_processo = formA.numero_processo)).length = 1 ∧
      ∀ form2 now2, form2.numero_processo = formA.numero_processo →
        adicionar_processo db' form2 now2 = .error .duplicateCaseNumber) ∧
    ((runRace "n" ⟨[], .beforeCheck, .beforeCheck⟩ [false, true, false, true]).a
        = .succeeded ↔
      ¬ (runRace "n" ⟨[], .beforeCheck, .beforeCheck⟩ [false, true, false, true]).b
        = .succeeded) :=
  ⟨C1_create_unique.1 dbOne formA 5 ⟨pA, by decide, by decide⟩,
   C1_create_unique.2.1 dbEmpty formA 5 (by decide),
   C1_create_unique.2.2 "n" [] [false, true, false, true] (by decide)
     (by decide) (by decide)⟩

theorem stampFrom_map_fst (l : List String) :
    ∀ n, (stampFrom n l).map Prod.fst = l := by
  induction l with
  | nil => intro n; rfl
  | cons p rest ih => intro n; simp [stampFrom, ih]

theorem stampFrom_map_snd (l : List String) :
    ∀ n, (stampFrom n l).map Prod.snd =
      (List.range l.length).map (fun i => folio_label (n + i)) := by
  induction l with
  | nil => intro n; rfl
  | cons p rest ih =>
    intro n
    have hr : (List.range (rest.length + 1)).map (fun i => folio_label (n + i)) =
        folio_label n ::
          (List.range rest.length).map (fun i => folio_label (n + 1 + i)) := by
      rw [List.range_succ_eq_map, List.map_cons, List.map_map]
      simp only [Function.comp_def, Nat.add_zero]
      rw [show (fun i => folio_label (n + (i + 1))) =
          (fun i => folio_label (n + 1 + i))
        from funext fun i => congrArg folio_label (by omega)]
    simp [stampFrom, ih (n + 1), hr]

theorem stampFrom_length (l : List String) :
    ∀ n, (stampFrom n l).length = l.length := by
  induction l with
  | nil => intro n; rfl
  | cons p rest ih => intro n; simp [stampFrom, ih]

theorem stamp_spec (pages : List String) :
    (stamp pages).map Prod.fst = pages ∧
    (stamp pages).map Prod.snd =
      (List.range pages.length).map (fun i => folio_label (i + 1)) ∧
    (stamp pages).length = pages.length := by
  refine ⟨stampFrom_map_fst pages 1, ?_, stampFrom_length pages 1⟩
  rw [stamp, stampFrom_map_snd pages 1]
  exact List.map_congr_left fun i _ => congrArg folio_label (by omega)

/-- C3: for a case whose two progress entries carry timestamps T1 ≤ T2 —
stored in either order, ties resolved by attachment order — each with one
stored document, the consolidated report is the cover page, then T1's
document pages, then T2's document pages, stamped with folio labels
`"Fl. {n:03d}"` numbered 1..M in that order, M = 1 + total source pages. -/
theorem C3_consolidation_order :
    ∀ db store (c : String) pid e1 e2 d1 d2 (P1 P2 : List String) p₀,
      db.processos.find? (fun q => q.id = pid) = some p₀ →
      ((andamentosOf db pid = [e1, e2] ∧ e1.data ≤ e2.data) ∨
       (andamentosOf db pid = [e2, e1] ∧ e1.data < e2.data)) →
      documentosOf db e1.id = [d1] →
      documentosOf db e2.id = [d2] →
      store.lookup d1.filename = some P1 →
      store.lookup d2.filename = some P2 →
      ∃ out, generate_pdf_task db store [c] pid = some out ∧
        out.map Prod.fst = c :: (P1 ++ P2) ∧
        out.map Prod.snd =
          (List.range out.length).map (fun i => folio_label (i + 1)) ∧
        out.length = 1 + (P1.length + P2.length) := by
  intro db store c pid e1 e2 d1 d2 P1 P2 p₀ hfind hands hd1 hd2 hs1 hs2
  have hsort : sortAndamentos (andamentosOf db pid) = [e1, e2] := by
    rcases hands with ⟨hl, hle⟩ | ⟨hl, hlt⟩
    · rw [hl]
      simp [sortAndamentos, insertByData, hle]
    · rw [hl]
      simp [sortAndamentos, insertByData, not_le.mpr hlt]
  have htask : generate_pdf_task db store [c] pid =
      some (stamp ([c] ++ (P1 ++ P2))) := by
    simp [generate_pdf_task, hfind, hsort, hd1, hd2, resolve, hs1, hs2]
  obtain ⟨hf, hs, hl⟩ := stamp_spec ([c] ++ (P1 ++ P2))
  refine ⟨stamp ([c] ++ (P1 ++ P2)), htask, by simpa using hf, ?_, ?_⟩
  · rw [hs, hl]
  · simp only [List.singleton_append, List.length_cons, List.length_append] at hl
    simp only [List.singleton_append]
    rw [hl]
    omega

/-- C4: a document whose file is missing from the upload folder is skipped
without aborting consolidation: with two documents under one entry, one
resolving and one missing, the report is produced (no failure) and holds
the cover page plus only the surviving document's pages. -/
theorem C4_missing_file :
    ∀ db store (c : String) pid e d1 d2 (P : List String) p₀,
      db.processos.find? (fun q => q.id = pid) = some p₀ →
      andamentosOf db pid = [e] →
      documentosOf db e.id = [d1, d2] →
      ((store.lookup d1.filename = some P ∧ store.lookup d2.filename = none) ∨
       (store.lookup d1.filename = none ∧ store.lookup d2.filename = some P)) →
      ∃ out, generate_pdf_task db store [c] pid = some out ∧
        out.map Prod.fst = c :: P ∧
        out.length = 1 + P.length := by
  intro db store c pid e d1 d2 P p₀ hfind hands hdocs hcase
  have hsort : sortAndamentos (andamentosOf db pid) = [e] := by
    rw [hands]
    simp [sortAndamentos, insertByData]
  have htask : generate_pdf_task db store [c] pid =
      some (stamp ([c] ++ P)) := by
    rcases hcase with ⟨hs1, hs2⟩ | ⟨hs1, hs2⟩ <;>
      simp [generate_pdf_task, hfind, hsort, hdocs, resolve, hs1, hs2]
  obtain ⟨hf, hs, hl⟩ := stamp_spec ([c] ++ P)
  refine ⟨stamp ([c] ++ P), htask, by simpa using hf, ?_⟩
  simp only [List.singleton_append, List.length_cons] at hl
  simp only [List.singleton_append]
  rw [hl]
  omega

/-- Witness for C3: consolidating `dbDocs` over `storeAB` with a one-page
cover yields cover, the two pages of "a.pdf" (entry at time 10), then the
page of "b.pdf" (entry at time 20), folios 001..004. -/
theorem C3_consolidation_order_witness :
    ∃ out, generate_pdf_task dbDocs storeAB ["capa"] 1 = some out ∧
      out.map Prod.fst = "capa" :: (["pa1", "pa2"] ++ ["pb1"]) ∧
      out.map Prod.snd =
        (List.range out.length).map (fun i => folio_label (i + 1)) ∧
      out.length = 1 + ((["pa1", "pa2"] : List String).length +
        (["pb1"] : List String).length) :=
  C3_consolidation_order dbDocs storeAB "capa" 1 entrada1 entrada2 docA docB
    ["pa1", "pa2"] ["pb1"] pA (by decide) (Or.inl ⟨by decide, by decide⟩)
    (by decide) (by decide) (by decide) (by decide)

/-- Witness for C4: consolidating `dbDocsOne` over `storeAOnly`, where
"b.pdf" is missing, still produces a report: cover plus the two pages of
"a.pdf". -/
theorem C4_missing_file_witness :
    ∃ out, generate_pdf_task dbDocsOne storeAOnly ["capa"] 1 = some out ∧
      out.map Prod.fst = "capa" :: ["pa1", "pa2"] ∧
      out.length = 1 + (["pa1", "pa2"] : List String).length :=
  C4_missing_file dbDocsOne storeAOnly "capa" 1 entrada1 docA docB2
    ["pa1", "pa2"] pA (by decide) (by decide) (by decide)
    (Or.inl ⟨by decide, by decide⟩)

/-- C6 counterexample: "Tipo Inexistente" is registered in no workflow, yet
creating a case of that type does not fail — it succeeds, and the new case's
status is the fallback first stage "Autuado". -/
theorem C6_counterexample :
    WORKFLOWS.lookup "Tipo Inexistente" = none ∧
    (adicionar_processo dbEmpty formUnknown 7).toOption.map
      (fun db => db.processos.map (fun p => p.status)) = some ["Autuado"] := by
  exact ⟨by decide, by decide⟩

/-- C6 (amended): the stage lookup never fails — an unregistered case type
falls back to the default `["Autuado"]`, a registered one yields its
`WORKFLOWS` stage list; creation with a fresh number therefore succeeds for
every case type, setting the new case's status to the first stage of that
list ("Autuado" when unregistered) and synthesizing exactly one initial
progress entry "Processo instaurado." carrying the same stage. -/
theorem C6_initial_stage :
    (∀ tipo, WORKFLOWS.lookup tipo = none →
        workflowsGet tipo ["Autuado"] = ["Autuado"]) ∧
    (∀ tipo stages, WORKFLOWS.lookup tipo = some stages →
        workflowsGet tipo ["Autuado"] = stages) ∧
    (∀ db form now,
        (∀ p ∈ db.processos, p.numero_processo ≠ form.numero_processo) →
        (∀ a ∈ db.andamentos, a.processo_id ≠ db.nextId) →
        ∃ db', adicionar_processo db form now = .ok db' ∧
          db'.processos = db.processos ++ [novoProcesso db form now] ∧
          (novoProcesso db form now).status =
            (workflowsGet form.tipo ["Autuado"]).headD "" ∧
          andamentosOf db' (novoProcesso db form now).id =
            [primeiroAndamento db form now] ∧
          (primeiroAndamento db form now).etapa =
            (novoProcesso db form now).status ∧
          (primeiroAndamento db form now).descricao =
            some "Processo instaurado.") := by
  refine ⟨?_, ?_, ?_⟩
  · intro tipo h
    simp [workflowsGet, h]
  · intro tipo stages h
    simp [workflowsGet, h]
  · intro db form now h hfresh
    have hc : db.processos.any
        (fun p => p.numero_processo = form.numero_processo) = false := by
      rw [List.any_eq_false]
      intro p hp
      simp [h p hp]
    have hres : adicionar_processo db form now = .ok
        { processos := db.processos ++ [novoProcesso db form now]
          andamentos := db.andamentos ++ [primeiroAndamento db form now]
          documentos := db.documentos
          nextId := db.nextId + 2 } := by
      simp [adicionar_processo, hc]
    refine ⟨_, hres, rfl, rfl, ?_, rfl, rfl⟩
    simp only [andamentosOf, List.filter_append]
    have h1 : db.andamentos.filter
        (fun a => decide (a.processo_id = (novoProcesso db form now).id)) = [] := by
      rw [List.filter_eq_nil_iff]
      intro a ha
      simpa [novoProcesso] using hfresh a ha
    rw [h1]
    simp [primeiroAndamento, novoProcesso]

/-- Witness for C6 (amended) at concrete inputs: the unregistered
"Tipo Inexistente", the registered "PAD", and creation of `formUnknown`
on the empty store. -/
theorem C6_initial_stage_witness :
    workflowsGet "Tipo Inexistente" ["Autuado"] = ["Autuado"] ∧
    workflowsGet "PAD" ["Autuado"] =
      ["Autuado", "Instrução", "Relatório Final", "Julgamento", "Finalizado"] ∧
    (∃ db', adicionar_processo dbEmpty formUnknown 7 = .ok db' ∧
      db'.processos = dbEmpty.processos ++ [novoProcesso dbEmpty formUnknown 7] ∧
      (novoProcesso dbEmpty formUnknown 7).status =
        (workflowsGet formUnknown.tipo ["Autuado"]).headD "" ∧
      andamentosOf db' (novoProcesso dbEmpty formUnknown 7).id =
        [primeiroAndamento dbEmpty formUnknown 7] ∧
      (primeiroAndamento dbEmpty formUnknown 7).etapa =
        (novoProcesso dbEmpty formUnknown 7).status ∧
      (primeiroAndamento dbEmpty formUnknown 7).descricao =
        some "Processo instaurado.") :=
  ⟨C6_initial_stage.1 "Tipo Inexistente" (by decide),
   C6_initial_stage.2.1 "PAD"
     ["Autuado", "Instrução", "Relatório Final", "Julgamento", "Finalizado"]
     (by decide),
   C6_initial_stage.2.2 dbEmpty formUnknown 7 (by decide) (by decide)⟩

/-- C7 counterexample: `pZero` has a deadline column holding 0, is not in a
terminal stage, and on its opening day satisfies 0 ≤ daysRemaining < 7 by
the formula, yet the dashboard's test rejects it and the dashboard count of
a store holding only this case is 0 — refuting "expiring soon exactly when
non-terminal and 0 ≤ daysRemaining < 7". -/
theorem C7_counterexample :
    pZero.status ≠ "Finalizado" ∧ pZero.status ≠ "Arquivado" ∧
    0 ≤ daysRemaining pZero 0 ∧ daysRemaining pZero 0 < 7 ∧
    expiring_soon pZero 0 = false ∧
    prazos_vencendo (⟨[pZero], [], [], 2⟩ : DB) 0 = 0 := by
  exact ⟨by decide, by decide, by decide, by decide, by decide, by decide⟩

/-- C7 (amended): `daysRemaining` is opening day + initial deadline days +
extension days − asOf whenever both columns are present; the dashboard
counts a case as expiring soon exactly when its stage is non-terminal, its
initial deadline is present and non-zero, and 0 ≤ daysRemaining < 7; and a
case opened on day D with 30 initial days and 5 extension days has
daysRemaining 2 on day D+33 and −1 on day D+36, the latter excluded. -/
theorem C7_expiring_soon :
    (∀ p hoje i e, p.prazo_inicial_dias = some i → p.prorrogacao_dias = some e →
        daysRemaining p hoje = p.data_autuacao + i + e - hoje) ∧
    (∀ p hoje, expiring_soon p hoje = true ↔
        (p.status ≠ "Finalizado" ∧ p.status ≠ "Arquivado" ∧
         p.prazo_inicial_dias ≠ none ∧ p.prazo_inicial_dias ≠ some 0 ∧
         0 ≤ daysRemaining p hoje ∧ daysRemaining p hoje < 7)) ∧
    (∀ D : Int, daysRemaining (pDeadline D) (D + 33) = 2 ∧
        daysRemaining (pDeadline D) (D + 36) = -1 ∧
        expiring_soon (pDeadline D) (D + 36) = false) := by
  refine ⟨?_, ?_, ?_⟩
  · intro p hoje i e hi he
    simp [daysRemaining, data_final, hi, he]
  · intro p hoje
    cases hpr : p.prazo_inicial_dias with
    | none => simp [expiring_soon, truthyInt, hpr]
    | some n =>
      by_cases hn : n = 0
      · subst hn
        simp [expiring_soon, truthyInt, hpr]
      · constructor
        · intro hh
          simp only [expiring_soon, truthyInt, hpr, Bool.and_eq_true,
            decide_eq_true_eq] at hh
          obtain ⟨⟨⟨h1, h2⟩, h3⟩, h4, h5⟩ := hh
          refine ⟨h1, h2, by simp [hpr], by simp [hpr, hn], ?_, ?_⟩
          · unfold daysRemaining
            omega
          · unfold daysRemaining
            omega
        · rintro ⟨h1, h2, h3, h4, h5, h6⟩
          simp only [expiring_soon, truthyInt, hpr, Bool.and_eq_true,
            decide_eq_true_eq]
          refine ⟨⟨⟨h1, h2⟩, hn⟩, ?_, ?_⟩
          · unfold daysRemaining at h5
            omega
          · unfold daysRemaining at h6
            omega
  · intro D
    refine ⟨?_, ?_, ?_⟩
    · simp only [daysRemaining, data_final, pDeadline, pA]
      simp
      omega
    · simp only [daysRemaining, data_final, pDeadline, pA]
      simp
      omega
    · rw [← Bool.not_eq_true]
      intro hh
      simp only [expiring_soon, Bool.and_eq_true, decide_eq_true_eq] at hh
      obtain ⟨⟨⟨h1, h2⟩, h3⟩, h4, h5⟩ := hh
      simp [data_final, pDeadline, pA] at h4 h5
      omega

/-- Witness for C7 (amended): `pDeadline 0` exercises the formula, the
biconditional, and the D+33 / D+36 instances. -/
theorem C7_expiring_soon_witness :
    daysRemaining (pDeadline 0) 33 =
      (pDeadline 0).data_autuacao + 30 + 5 - 33 ∧
    (expiring_soon (pDeadline 0) 33 = true ↔
      ((pDeadline 0).status ≠ "Finalizado" ∧
       (pDeadline 0).status ≠ "Arquivado" ∧
       (pDeadline 0).prazo_inicial_dias ≠ none ∧
       (pDeadline 0).prazo_inicial_dias ≠ some 0 ∧
       0 ≤ daysRemaining (pDeadline 0) 33 ∧
       daysRemaining (pDeadline 0) 33 < 7)) ∧
    (daysRemaining (pDeadline 0) (0 + 33) = 2 ∧
     daysRemaining (pDeadline 0) (0 + 36) = -1 ∧
     expiring_soon (pDeadline 0) (0 + 36) = false) :=
  ⟨C7_expiring_soon.1 (pDeadline 0) 33 30 5 (by decide) (by decide),
   C7_expiring_soon.2.1 (pDeadline 0) 33,
   C7_expiring_soon.2.2 0⟩

/-- C8: deleting a stored case deletes, in the record store, the case row,
every progress entry of the case and every document of those entries:
afterwards no entry references the deleted case and no document references
an entry the case owned. -/
theorem C8_delete_cascade (db : DB) (pid : Nat)
    (h : ∃ p ∈ db.processos, p.id = pid) :
    excluir_processo db pid = some (excluido db pid) ∧
    (∀ p ∈ (excluido db pid).processos, p.id ≠ pid) ∧
    (∀ a ∈ (excluido db pid).andamentos, a.processo_id ≠ pid) ∧
    (∀ d ∈ (excluido db pid).documentos, ∀ a ∈ db.andamentos,
      a.processo_id = pid → d.andamento_id ≠ a.id) := by
  have hc : db.processos.any (fun p => p.id = pid) = true := by
    rw [List.any_eq_true]
    obtain ⟨p, hp, he⟩ := h
    exact ⟨p, hp, by simp [he]⟩
  refine ⟨by simp [excluir_processo, hc], ?_, ?_, ?_⟩
  · intro p hp
    simp only [excluido] at hp
    simpa using (List.mem_filter.mp hp).2
  · intro a ha
    simp only [excluido] at ha
    simpa using (List.mem_filter.mp ha).2
  · intro d hd a ha hpa heq
    simp only [excluido] at hd
    have hkeep := (List.mem_filter.mp hd).2
    rw [decide_eq_true_eq] at hkeep
    apply hkeep
    rw [List.any_eq_true]
    refine ⟨a, ?_, by simp [heq]⟩
    rw [List.mem_filter]
    exact ⟨ha, by simp [hpa]⟩

/-- Witness for C8: deleting case 1 from `dbDocs` (two entries, two
documents). -/
theorem C8_delete_cascade_witness :
    excluir_processo dbDocs 1 = some (excluido dbDocs 1) ∧
    (∀ p ∈ (excluido dbDocs 1).processos, p.id ≠ 1) ∧
    (∀ a ∈ (excluido dbDocs 1).andamentos, a.processo_id ≠ 1) ∧
    (∀ d ∈ (excluido dbDocs 1).documentos, ∀ a ∈ dbDocs.andamentos,
      a.processo_id = 1 → d.andamento_id ≠ a.id) :=
  C8_delete_cascade dbDocs 1 ⟨pA, by decide, by decide⟩

/-- C9: a case whose `prazo_inicial_dias` is 0 is handled by the dashboard's
expiring-soon test exactly like one with no deadline at all: both are
excluded, and a store holding only such a case reports zero expiring
deadlines. -/
theorem C9_zero_deadline (p : Processo) (hoje : Int)
    (h : p.prazo_inicial_dias = some 0) :
    expiring_soon p hoje = false ∧
    expiring_soon { p with prazo_inicial_dias := none } hoje = false ∧
    expiring_soon p hoje =
      expiring_soon { p with prazo_inicial_dias := none } hoje ∧
    prazos_vencendo (⟨[p], [], [], 1⟩ : DB) hoje = 0 := by
  have h1 : expiring_soon p hoje = false := by
    simp [expiring_soon, truthyInt, h]
  have h2 : expiring_soon { p with prazo_inicial_dias := none } hoje = false := by
    simp [expiring_soon, truthyInt]
  exact ⟨h1, h2, by rw [h1, h2], by simp [prazos_vencendo, h1]⟩

/-- Witness for C9: `pZero` on day 0 — where the daysRemaining formula is
even inside the expiring window — is excluded all the same. -/
theorem C9_zero_deadline_witness :
    (0 ≤ daysRemaining pZero 0 ∧ daysRemaining pZero 0 < 7 ∧
      pZero.status ≠ "Finalizado" ∧ pZero.status ≠ "Arquivado") ∧
    (expiring_soon pZero 0 = false ∧
     expiring_soon { pZero with prazo_inicial_dias := none } 0 = false ∧
     expiring_soon pZero 0 =
       expiring_soon { pZero with prazo_inicial_dias := none } 0 ∧
     prazos_vencendo (⟨[pZero], [], [], 1⟩ : DB) 0 = 0) :=
  ⟨by decide, C9_zero_deadline pZero 0 (by decide)⟩

end GestaoPad
